import Mathlib

/-!
Verification of the phone-number authentication service
(OTP lifecycle, JWT auth, admin role management, Telegram delivery).

The definitions below are a shallow embedding of the Python sources:
  app/modules/auth/service/otp_service.py   (OtpService)
  app/modules/auth/service/auth_service.py  (AuthService)
  app/modules/auth/api/auth_route.py        (auth endpoints)
  app/modules/auth/api/admin_route.py       (admin endpoints)
  app/modules/auth/repository/auth_repository.py (AuthRepository)
  app/modules/telegram/router.py            (Telegram webhook handlers)

Conventions of the embedding:
* The Redis ephemeral store is a list of (key, value, absolute-expiry)
  entries; the current wall clock is passed explicitly as a `Nat` of
  seconds, so TTL semantics are explicit.
* Fallible Python code is `Except`/`Option`; `Option.none` at the outer
  layer models an uncaught Python exception.
* `random.randint` draws are passed in as an explicit `Nat` parameter.
-/

namespace Turon

/-! ### Python numeric/string primitives

`pyInt?` models Python `int(s)` on an optionally-signed decimal string
(returning `none` where Python raises `ValueError`; the whitespace and
underscore tolerance of Python `int` is not needed by any input in this
development).  `pyStr` models Python `str(n)` for a non-negative integer
and `pyIntStr` for a possibly negative one. -/

def digitVal? (c : Char) : Option Nat :=
  if '0' ≤ c ∧ c ≤ '9' then some (c.toNat - 48) else none

def digitsValAux : List Char → Nat → Option Nat
  | [], a => some a
  | c :: cs, a =>
    match digitVal? c with
    | none => none
    | some d => digitsValAux cs (a * 10 + d)

def pyInt? (s : String) : Option Int :=
  match s.data with
  | [] => none
  | '-' :: rest =>
    if rest = [] then none else (digitsValAux rest 0).map (fun n => -(n : Int))
  | '+' :: rest =>
    if rest = [] then none else (digitsValAux rest 0).map (fun n => (n : Int))
  | ds => (digitsValAux ds 0).map (fun n => (n : Int))

def digitChar (d : Nat) : Char := Char.ofNat (48 + d)

/-- Digits of `n` in order, prepended to `acc`; fuel-driven so that it
reduces definitionally (`fuel ≥ number of digits` suffices). -/
def pyStrAux : Nat → Nat → List Char → List Char
  | 0, _, acc => acc
  | fuel + 1, n, acc =>
    if n = 0 then acc else pyStrAux fuel (n / 10) (digitChar (n % 10) :: acc)

def pyStr (n : Nat) : String :=
  if n = 0 then "0" else ⟨pyStrAux n n []⟩

def pyIntStr (n : Int) : String :=
  if n < 0 then "-" ++ pyStr n.natAbs else pyStr n.natAbs

/-- Number of decimal digits of `n` (1 for `n < 10`). -/
def numDigits (n : Nat) : Nat :=
  if n < 10 then 1 else numDigits (n / 10) + 1
termination_by n
decreasing_by
  exact Nat.div_lt_self (by omega) (by omega)

theorem pyStrAux_zero (fuel : Nat) (acc : List Char) :
    pyStrAux fuel 0 acc = acc := by
  cases fuel <;> simp [pyStrAux]

/-- The first character emitted by `pyStrAux` on a positive `n` is a
nonzero-headed digit run: the leading decimal digit of `n`. -/
theorem pyStrAux_head (fuel : Nat) :
    ∀ n acc, 0 < n → n ≤ fuel →
      ∃ d tl, pyStrAux fuel n acc = digitChar d :: tl ∧ 0 < d ∧ d ≤ 9 := by
  induction fuel with
  | zero => intro n acc hn hfuel; omega
  | succ fuel ih =>
    intro n acc hn hfuel
    rw [pyStrAux, if_neg (by omega)]
    by_cases hsmall : n < 10
    · have : n / 10 = 0 := Nat.div_eq_of_lt hsmall
      rw [this, pyStrAux_zero]
      exact ⟨n % 10, acc, rfl, by omega, by omega⟩
    · exact ih (n / 10) (digitChar (n % 10) :: acc) (by omega) (by omega)

theorem pyStrAux_length (fuel : Nat) :
    ∀ n acc, 0 < n → n ≤ fuel →
      (pyStrAux fuel n acc).length = numDigits n + acc.length := by
  induction fuel with
  | zero => intro n acc hn hfuel; omega
  | succ fuel ih =>
    intro n acc hn hfuel
    rw [pyStrAux, if_neg (by omega)]
    by_cases hsmall : n < 10
    · have h0 : n / 10 = 0 := Nat.div_eq_of_lt hsmall
      rw [h0, pyStrAux_zero, numDigits, if_pos hsmall]
      simp; omega
    · rw [ih (n / 10) (digitChar (n % 10) :: acc) (by omega) (by omega)]
      conv_rhs => rw [numDigits, if_neg hsmall]
      simp; omega

theorem numDigits_six {n : Nat} (h1 : 100000 ≤ n) (h2 : n ≤ 999999) :
    numDigits n = 6 := by
  rw [numDigits, if_neg (by omega)]
  rw [numDigits, if_neg (by omega)]
  rw [numDigits, if_neg (by omega)]
  rw [numDigits, if_neg (by omega)]
  rw [numDigits, if_neg (by omega)]
  rw [numDigits, if_pos (by omega)]

theorem pyStr_head {n : Nat} (h : 0 < n) :
    ∃ d tl, (pyStr n).data = digitChar d :: tl ∧ 0 < d ∧ d ≤ 9 := by
  rw [pyStr, if_neg (by omega)]
  obtain ⟨d, tl, heq, hd1, hd2⟩ := pyStrAux_head n n [] h (Nat.le_refl n)
  exact ⟨d, tl, by simpa using heq, hd1, hd2⟩

theorem pyStr_length {n : Nat} (h1 : 100000 ≤ n) (h2 : n ≤ 999999) :
    (pyStr n).length = 6 := by
  rw [pyStr, if_neg (by omega)]
  show (pyStrAux n n []).length = 6
  rw [pyStrAux_length n n [] (by omega) (Nat.le_refl n), numDigits_six h1 h2]
  simp

theorem digitChar_ne_zero_char {d : Nat} (h1 : 0 < d) (h2 : d ≤ 9) :
    digitChar d ≠ '0' := by
  interval_cases d <;> decide

/-! ### The ephemeral store (Redis)

`Store` is the full key space of the Redis instance.  `rset`/`rsetex`
model `SET key value EX ttl` / `SETEX` (every write in the sources
carries a TTL), `rget` models `GET` (expired entries are absent),
`rdel` models `DEL`, `rttl` models `TTL` (`-2` for a missing key). -/

abbrev Store := List (String × String × Nat)

def rset (st : Store) (k v : String) (expireAt : Nat) : Store :=
  (k, v, expireAt) :: st.filter (fun e => e.1 ≠ k)

def rsetex (st : Store) (now : Nat) (k : String) (ttl : Nat) (v : String) : Store :=
  rset st k v (now + ttl)

def rget (st : Store) (now : Nat) (k : String) : Option String :=
  match st.find? (fun e => e.1 = k) with
  | some (_, v, expireAt) => if now < expireAt then some v else none
  | none => none

def rdel (st : Store) (k : String) : Store :=
  st.filter (fun e => e.1 ≠ k)

def rttl (st : Store) (now : Nat) (k : String) : Int :=
  match st.find? (fun e => e.1 = k) with
  | some (_, _, expireAt) => if now < expireAt then ((expireAt - now : Nat) : Int) else -2
  | none => -2

theorem find?_filter_ne (st : Store) (k k' : String) (h : k' ≠ k) :
    (st.filter (fun e => e.1 ≠ k)).find? (fun e => e.1 = k')
      = st.find? (fun e => e.1 = k') := by
  rw [List.find?_filter]
  congr 1
  funext e
  by_cases he : e.1 = k'
  · have hne : e.1 ≠ k := by rw [he]; exact h
    simp [he, hne, h]
  · simp [he]

theorem rget_rset_self (st : Store) (now : Nat) (k v : String) (expireAt : Nat) :
    rget (rset st k v expireAt) now k
      = if now < expireAt then some v else none := by
  simp [rget, rset, List.find?]

theorem rget_rset_ne (st : Store) (now : Nat) (k v : String) (expireAt : Nat)
    (k' : String) (h : k' ≠ k) :
    rget (rset st k v expireAt) now k' = rget st now k' := by
  unfold rget rset
  rw [List.find?_cons_of_neg _ (by simp; exact fun hh => h hh.symm),
    find?_filter_ne st k k' h]

theorem rget_rsetex_self (st : Store) (now : Nat) (k : String) (ttl : Nat)
    (v : String) (now' : Nat) :
    rget (rsetex st now k ttl v) now' k
      = if now' < now + ttl then some v else none :=
  rget_rset_self st now' k v (now + ttl)

theorem rget_rsetex_ne (st : Store) (now : Nat) (k : String) (ttl : Nat)
    (v : String) (now' : Nat) (k' : String) (h : k' ≠ k) :
    rget (rsetex st now k ttl v) now' k' = rget st now' k' :=
  rget_rset_ne st now' k v (now + ttl) k' h

theorem rget_rdel_self (st : Store) (now : Nat) (k : String) :
    rget (rdel st k) now k = none := by
  simp only [rget, rdel]
  have : (st.filter (fun e => e.1 ≠ k)).find? (fun e => e.1 = k) = none := by
    induction st with
    | nil => rfl
    | cons e rest ih =>
      by_cases hk : e.1 = k
      · simp [List.filter, hk, ih]
      · simp [List.filter, List.find?, hk, ih]
  rw [this]

theorem rttl_rsetex_self (st : Store) (now : Nat) (k : String) (ttl : Nat)
    (v : String) (now' : Nat) :
    rttl (rsetex st now k ttl v) now' k
      = if now' < now + ttl then ((now + ttl - now' : Nat) : Int) else -2 := by
  simp [rttl, rsetex, rset, List.find?]

/-! ### OtpService (`app/modules/auth/service/otp_service.py`) -/

def otpKey (phone : String) : String := "otp:" ++ phone

def cooldownKey (phone : String) : String := "otp_cooldown:" ++ phone

/-- `OtpService._generate_otp`: `str(random.randint(100000, 999999))`.
The random draw is the explicit parameter `r`, reduced into the inclusive
range `[100000, 999999]` of `randint`. -/
def _generate_otp (r : Nat) : String := pyStr (100000 + r % 900000)

/-- `OtpService.create_otp`.  Raises 429 when the cooldown marker is
present (and truthy, as Python's `if cooldown_exists:` tests); otherwise
stores the code under `otp:{phone}` with TTL 300 and the marker `"1"`
under `otp_cooldown:{phone}` with TTL 60, and returns the code. -/
def create_otp (st : Store) (now : Nat) (phone : String) (r : Nat) :
    Except Nat (String × Store) :=
  let cont : Except Nat (String × Store) :=
    let otp := _generate_otp r
    let st1 := rsetex st now (otpKey phone) 300 otp
    let st2 := rsetex st1 now (cooldownKey phone) 60 "1"
    .ok (otp, st2)
  match rget st now (cooldownKey phone) with
  | some v => if v ≠ "" then .error 429 else cont
  | none => cont

/-- Core of `OtpService.verify_otp` with the candidate already taken
through Python `int(...)` (`cand = none` models an argument on which
`int` raises).  The outer `none` models an uncaught `ValueError`;
`int(stored)` is evaluated before `int(otp)`, as in the source. -/
def verify_otp_compare (st : Store) (phone stored : String)
    (cand : Option Int) : Option (Bool × Store) :=
  match pyInt? stored with
  | none => none
  | some a =>
    match cand with
    | none => none
    | some b =>
      if a ≠ b then some (false, st)
      else some (true, rdel st (otpKey phone))

def verify_otp_parsed (st : Store) (now : Nat) (phone : String)
    (cand : Option Int) : Option (Bool × Store) :=
  match rget st now (otpKey phone) with
  | none => some (false, st)
  | some stored => verify_otp_compare st phone stored cand

/-- `OtpService.verify_otp` on a string candidate. -/
def verify_otp (st : Store) (now : Nat) (phone otp : String) :
    Option (Bool × Store) :=
  verify_otp_parsed st now phone (pyInt? otp)

/-- `OtpService.get_cooldown`: remaining TTL of the cooldown marker,
clamped to `≥ 0`. -/
def get_cooldown (st : Store) (now : Nat) (phone : String) : Int :=
  max (rttl st now (cooldownKey phone)) 0

/-! ### User store (`app/modules/auth/models/orm.py`,
`app/modules/auth/repository/auth_repository.py`)

A `User` row; `id` is a string (36-char UUID primary key in the ORM).
Timestamps are omitted: no claim mentions them.  The repository is a
list of rows with the SQL queries of `AuthRepository` as list
operations. -/

inductive UserRole
  | ADMIN
  | ORDINARY
deriving DecidableEq, Repr

structure User where
  id : String
  first_name : String
  last_name : String
  phone_number : String
  hashed_password : String
  role : UserRole
  is_active : Bool
deriving DecidableEq, Repr

def get_user_by_phone (us : List User) (phone : String) : Option User :=
  us.find? (fun u => u.phone_number = phone)

def get_user_by_id (us : List User) (uid : String) : Option User :=
  us.find? (fun u => u.id = uid)

/-- `AuthRepository.get_user_by_id` when called with the Python `int`
obtained from a token subject: SQLite compares the TEXT `id` column
with the integer by converting the integer to its decimal text. -/
def get_user_by_int_id (us : List User) (uid : Int) : Option User :=
  us.find? (fun u => u.id = pyIntStr uid)

def get_admin_count (us : List User) : Nat :=
  us.countP (fun u => u.role = UserRole.ADMIN)

def update_user_role (us : List User) (uid : String) (role : UserRole) :
    List User :=
  us.map (fun u => if u.id = uid then { u with role := role } else u)

def update_user_status (us : List User) (uid : String) (active : Bool) :
    List User :=
  us.map (fun u => if u.id = uid then { u with is_active := active } else u)

/-- `AuthRepository.delete_user`: returns whether the row existed,
together with the store after the delete. -/
def delete_user (us : List User) (uid : String) : Bool × List User :=
  match get_user_by_id us uid with
  | some _ => (true, us.filter (fun u => u.id ≠ uid))
  | none => (false, us)

/-- `AuthRepository.create_user` (role defaults to ORDINARY at every
call site reached from registration); `newId` is the generated UUID. -/
def create_user (us : List User) (phone hp first last newId : String)
    (role : UserRole) : User × List User :=
  let u : User :=
    { id := newId, first_name := first, last_name := last,
      phone_number := phone, hashed_password := hp, role := role,
      is_active := true }
  (u, us ++ [u])

/-! ### Credential hashing (`passlib` CryptContext)

The hasher is an external leaf; it is modelled functionally: `pwd_hash`
is an injective digest of the plaintext, and `pwd_verify` accepts
exactly the digest of the plaintext, which is the contract the service
relies on. -/

def pwd_hash (plain : String) : String := "$argon2id$" ++ plain

def pwd_verify (plain hashed : String) : Bool := hashed = pwd_hash plain

/-! ### Tokens (PyJWT with a shared secret, HS256)

A token is either structurally malformed or a payload
`{sub, exp}` signed by some secret.  `jwt_decode` models
`jwt.decode(token, SECRET_KEY, algorithms=[ALGORITHM])`: it fails on a
signature mismatch, on an expiry in the past and on malformed
structure. -/

structure Payload where
  sub : Option String
  exp : Nat
deriving DecidableEq, Repr

inductive Token
  | malformed
  | signed (payload : Payload) (secret : String)
deriving DecidableEq, Repr

def jwt_decode (t : Token) (secret : String) (now : Nat) : Option Payload :=
  match t with
  | .malformed => none
  | .signed p s => if s = secret ∧ now ≤ p.exp then some p else none

/-- `AuthService._create_access_token` (expiry
`now + ACCESS_TOKEN_EXPIRE_MINUTES` minutes). -/
def _create_access_token (uid : String) (secret : String) (now expMin : Nat) :
    Token :=
  .signed ⟨some uid, now + expMin * 60⟩ secret

/-- `AuthService._create_refresh_token` (expiry `now + 30` days). -/
def _create_refresh_token (uid : String) (secret : String) (now : Nat) :
    Token :=
  .signed ⟨some uid, now + 30 * 24 * 60 * 60⟩ secret

/-! ### AuthService (`app/modules/auth/service/auth_service.py`)

Failures are `Except.error status` with the HTTP status raised by the
service (`HTTPException`). -/

/-- `AuthService.get_current_user`.  `jwt.decode` failure,
`int(payload.get("sub"))` failure (`sub` absent → `TypeError`,
non-numeric → `ValueError`) and a missing user all raise 401; otherwise
the user row is returned.  The service keeps no token blacklist: no
store is consulted besides the user store. -/
def get_current_user (us : List User) (secret : String) (now : Nat)
    (token : Token) : Except Nat User :=
  match jwt_decode token secret now with
  | none => .error 401
  | some p =>
    match p.sub with
    | none => .error 401
    | some s =>
      match pyInt? s with
      | none => .error 401
      | some uid =>
        match get_user_by_int_id us uid with
        | none => .error 401
        | some u => .ok u

structure LoginResponse where
  status_code : Nat
  access_token : Token
  token_type : String
  refresh_cookie : Token
deriving DecidableEq, Repr

/-- `AuthService.login_user`: 401 when the user is absent or the
password digest does not verify; on success a 200 response carrying the
access token in the body and the refresh token as a cookie.  The row's
`is_active` flag is never consulted. -/
def login_user (us : List User) (secret : String) (now expMin : Nat)
    (phone password : String) : Except Nat LoginResponse :=
  match get_user_by_phone us phone with
  | none => .error 401
  | some u =>
    if pwd_verify password u.hashed_password then
      .ok { status_code := 200,
            access_token := _create_access_token u.id secret now expMin,
            token_type := "bearer",
            refresh_cookie := _create_refresh_token u.id secret now }
    else .error 401

structure RegisterIn where
  first_name : String
  last_name : String
  phone_number : String
  password : String
  otp : Int
deriving DecidableEq, Repr

deriving instance DecidableEq for Except

/-- Outcome of a successful `AuthService.register_user` run: the user
store and ephemeral store after it, the value of the internal
`login_user` call, and the value the function returns to the route —
`none`, because `register_user` ends without a `return` statement, so
the computed login response is discarded. -/
structure RegisterOutcome where
  users : List User
  store : Store
  login_result : Except Nat LoginResponse
  returned : Option LoginResponse
deriving DecidableEq, Repr

/-- `AuthService.register_user`.  The outer `Option` models an uncaught
exception escaping the OTP comparison; `Except.error 400` covers both
the duplicate-phone and the invalid-OTP rejections (the schema has
already coerced `otp` to `int`). -/
def register_user (us : List User) (st : Store) (secret : String)
    (now expMin : Nat) (newId : String) (inp : RegisterIn) :
    Option (Except Nat RegisterOutcome) :=
  match get_user_by_phone us inp.phone_number with
  | some _ => some (.error 400)
  | none =>
    match verify_otp_parsed st now inp.phone_number (some inp.otp) with
    | none => none
    | some (false, _) => some (.error 400)
    | some (true, st') =>
      let hp := pwd_hash inp.password
      let (newU, us') := create_user us inp.phone_number hp
        inp.first_name inp.last_name newId UserRole.ORDINARY
      let lr := login_user us' secret now expMin newU.phone_number inp.password
      some (.ok ⟨us', st', lr, none⟩)

/-! ### Logout (`auth_route.py` + `AuthService.logout_user`)

`AuthService.logout_user` is declared with no parameter besides `self`,
but the route always invokes it with one positional argument (the
extracted bearer token, possibly `None`).  `py_call_logout_user` models
Python's call protocol: the call raises `TypeError` whenever the
argument list is non-empty. -/

structure LogoutResponse where
  status_code : Nat
  cookie_deleted : Bool
deriving DecidableEq, Repr

inductive PyError
  | typeError
deriving DecidableEq, Repr

/-- Calling `AuthService.logout_user` with the given positional
arguments.  With no argument it returns the 200 response with the
`refresh_token` cookie deleted — the entire body of the method; any
argument makes the call itself raise `TypeError`. -/
def py_call_logout_user (args : List (Option String)) :
    Except PyError LogoutResponse :=
  match args with
  | [] => .ok { status_code := 200, cookie_deleted := true }
  | _ :: _ => .error .typeError

/-- Bearer extraction in the `/auth/logout` route. -/
def extract_bearer (authorization : Option String) : Option String :=
  match authorization with
  | some a =>
    if a.startsWith "Bearer " then some (a.replace "Bearer " "") else none
  | none => none

/-- The `/auth/logout` route body: it always passes the extracted token
(possibly `None`) as a positional argument to `logout_user`.  An
`Except.error` is an exception escaping the route, which FastAPI turns
into a 500 response. -/
def logout_route (authorization : Option String) :
    Except PyError LogoutResponse :=
  py_call_logout_user [extract_bearer authorization]

/-! ### Admin routes (`app/modules/auth/api/admin_route.py`)

Each route body runs after the `get_current_admin_active` dependency,
so `actor` is the authenticated admin.  The result carries the HTTP
status, the user store after the operation (unchanged when an
`HTTPException` is raised before any commit) and the updated row when
one is returned. -/

structure AdminOpResult where
  status : Nat
  users : List User
  updated : Option User
deriving DecidableEq, Repr

/-- `PATCH /admin/users/{user_id}/role` (`update_user_role` route). -/
def update_user_role_route (us : List User) (actor : User)
    (user_id : String) (role : UserRole) : AdminOpResult :=
  if user_id = actor.id then ⟨400, us, none⟩
  else
    match get_user_by_id us user_id with
    | none => ⟨404, us, none⟩
    | some _ =>
      if role = UserRole.ORDINARY ∧ get_admin_count us ≤ 1 then
        ⟨400, us, none⟩
      else
        let us' := update_user_role us user_id role
        ⟨200, us', get_user_by_id us' user_id⟩

/-- `PATCH /admin/users/{user_id}/status` (`update_user_status` route). -/
def update_user_status_route (us : List User) (actor : User)
    (user_id : String) (is_active : Bool) : AdminOpResult :=
  if user_id = actor.id then ⟨400, us, none⟩
  else
    match get_user_by_id us user_id with
    | none => ⟨404, us, none⟩
    | some _ =>
      let us' := update_user_status us user_id is_active
      ⟨200, us', get_user_by_id us' user_id⟩

/-- `DELETE /admin/users/{user_id}` (`delete_user` route). -/
def delete_user_route (us : List User) (actor : User) (user_id : String) :
    AdminOpResult :=
  if user_id = actor.id then ⟨400, us, none⟩
  else
    match get_user_by_id us user_id with
    | none => ⟨404, us, none⟩
    | some target =>
      if target.role = UserRole.ADMIN ∧ get_admin_count us ≤ 1 then
        ⟨400, us, none⟩
      else
        let r := delete_user us user_id
        if r.1 then ⟨200, r.2, none⟩ else ⟨500, r.2, none⟩

/-! ### Telegram channel (`app/modules/telegram/router.py`) -/

/-- Key of the phone correlation: `f"telegram_phone_{…}"`.  It is
written with the *chat* id in `send_otp_with_button` and read with the
*sender's user* id in the callback handler. -/
def telPhoneKey (uid : Int) : String := "telegram_phone_" ++ pyIntStr uid

def telDedupKey (chat : Int) : String :=
  "telegram_last_update_" ++ pyIntStr chat

/-- `phone_number.lstrip('+')` followed by prepending `'+'` (after the
strip the string never starts with `'+'`, so the prepend always runs). -/
def normalize_phone (p : String) : String :=
  "+" ++ ⟨p.data.dropWhile (fun c => c = '+')⟩

/-- Observable outcome of processing one inbound update. -/
inductive TgAction
  | ignored
  | prompted
  | otpSent (phone code : String)
  | otpRateLimited (phone : String)
  | phoneNotFound
  | cooldownRejected (phone : String) (waitSeconds : Int)
deriving DecidableEq, Repr

/-- `send_otp_with_button(chat_id, phone_number)`: normalizes the
phone, stores the correlation under `telegram_phone_{chat_id}` with TTL
600, then calls `create_otp` and sends the code.  A 429 from
`create_otp` escapes into the detached task (the correlation write has
already happened). -/
def send_otp_with_button (st : Store) (now : Nat) (chat : Int)
    (phone : String) (r : Nat) : TgAction × Store :=
  let np := normalize_phone phone
  let st1 := rset st (telPhoneKey chat) np (now + 600)
  match create_otp st1 now np r with
  | .ok (code, st2) => (.otpSent np code, st2)
  | .error _ => (.otpRateLimited np, st1)

/-- The inbound updates relevant to the handler: a `/start` text, a
shared contact, and an inline-button callback.  Fields mirror
`update_id`, `message.chat.id` / `callback_query.message.chat.id`,
`message.from.id` / `callback_query.from.id`, `contact.user_id`,
`contact.phone_number` and `callback_query.data`. -/
inductive TgUpdate
  | startCommand (update_id chat fromUser : Int)
  | contactShared (update_id chat fromUser contactUserId : Int)
      (contactPhone : String)
  | callback (update_id chat fromUser : Int) (data : String)
deriving DecidableEq, Repr

def tgUpdateId : TgUpdate → Int
  | .startCommand i _ _ => i
  | .contactShared i _ _ _ _ => i
  | .callback i _ _ _ => i

def tgChat : TgUpdate → Int
  | .startCommand _ c _ => c
  | .contactShared _ c _ _ _ => c
  | .callback _ c _ _ => c

/-- `process_update`: deduplicates by chat id (ignore when the stored
last update id is ≥ the incoming one), records the incoming id with TTL
3600, then dispatches.  The callback branch looks the correlation up
under the *sender's* user id and checks `get_cooldown` before
re-issuing.  `none` models an uncaught exception (unparseable dedup
marker). -/
def process_update (st : Store) (now : Nat) (u : TgUpdate) (r : Nat) :
    Option (TgAction × Store) :=
  let handle : Store → Option (TgAction × Store) := fun st1 =>
    match u with
    | .startCommand _ _ _ => some (.prompted, st1)
    | .contactShared _ c f cu cp =>
      if cu ≠ f then some (.ignored, st1)
      else some (send_otp_with_button st1 now c cp r)
    | .callback _ c f data =>
      if data = "request_otp" then
        match rget st1 now (telPhoneKey f) with
        | none => some (.phoneNotFound, st1)
        | some ph =>
          if ph = "" then some (.phoneNotFound, st1)
          else
            let cd := get_cooldown st1 now ph
            if 0 < cd then some (.cooldownRejected ph cd, st1)
            else some (send_otp_with_button st1 now c ph r)
      else some (.ignored, st1)
  let chat := tgChat u
  let upd := tgUpdateId u
  let write := rset st (telDedupKey chat) (pyIntStr upd) (now + 3600)
  match rget st now (telDedupKey chat) with
  | some v =>
    if v ≠ "" then
      match pyInt? v with
      | none => none
      | some last => if upd ≤ last then some (.ignored, st) else handle write
    else handle write
  | none => handle write

/-! ## Claims -/

def c1_user : User :=
  { id := "u1", first_name := "John", last_name := "Doe",
    phone_number := "+998501234567",
    hashed_password := pwd_hash "Password123",
    role := .ORDINARY, is_active := false }

/-- C1: the spec demands that login with a correct password but
`is_active = false` fail with Forbidden (403) and issue no tokens.
`AuthService.login_user` never reads `is_active`: for a stored
deactivated user and the correct password it answers 200 and issues
both tokens.  (The repository's own test
`test_login_deactivated_user` asserts the 403.) -/
theorem C1_login_ignores_inactive_flag :
    c1_user.is_active = false
    ∧ login_user [c1_user] "secret" 0 30 "+998501234567" "Password123"
        = .ok { status_code := 200,
                access_token := _create_access_token "u1" "secret" 0 30,
                token_type := "bearer",
                refresh_cookie := _create_refresh_token "u1" "secret" 0 }
    ∧ login_user [c1_user] "secret" 0 30 "+998501234567" "Password123"
        ≠ .error 403 := by
  refine ⟨rfl, by decide, by decide⟩

/-- C7: the spec says logout always succeeds (200, refresh cookie
cleared, supplied access token blacklisted).  The route always passes
the extracted bearer token (possibly `None`) as a positional argument,
but `AuthService.logout_user` accepts no argument, so every call to
`POST /auth/logout` raises `TypeError` (surfacing as HTTP 500); the
cookie is never cleared and nothing is blacklisted. -/
theorem C7_logout_route_always_raises :
    logout_route (some "Bearer abc") = .error .typeError
    ∧ logout_route none = .error .typeError
    ∧ ∀ authorization, logout_route authorization = .error .typeError :=
  ⟨rfl, rfl, fun _ => rfl⟩

/-- C10: with an OTP record present, a candidate on which Python
`int(...)` raises makes `verify_otp` raise an uncaught `ValueError`
(modelled by `none`) instead of returning a boolean. -/
theorem C10_verify_otp_unparseable_candidate_raises
    (st : Store) (now : Nat) (phone stored cand : String)
    (hrec : rget st now (otpKey phone) = some stored)
    (hcand : pyInt? cand = none) :
    verify_otp st now phone cand = none := by
  unfold verify_otp verify_otp_parsed
  rw [hrec]
  show verify_otp_compare st phone stored (pyInt? cand) = none
  unfold verify_otp_compare
  rw [hcand]
  cases pyInt? stored <;> rfl

/-- Closed instance of `C10_verify_otp_unparseable_candidate_raises`. -/
theorem C10_witness :
    rget [(otpKey "p", "123456", 300)] 0 (otpKey "p") = some "123456"
    ∧ verify_otp [(otpKey "p", "123456", 300)] 0 "p" "abc" = none :=
  ⟨by decide,
   C10_verify_otp_unparseable_candidate_raises
     [(otpKey "p", "123456", 300)] 0 "p" "123456" "abc"
     (by decide) (by decide)⟩

/-- C3: `verify_otp` returns false when no record exists; compares the
stored code and the candidate numerically; on a match deletes the
record and returns true, after which the same correct code is refused
(single-use); on a mismatch returns false and leaves the store
intact. -/
theorem C3_verify_otp_single_use
    (st : Store) (now : Nat) (phone cand stored : String) (a b : Int) :
    (rget st now (otpKey phone) = none →
      verify_otp st now phone cand = some (false, st))
    ∧ (rget st now (otpKey phone) = some stored →
        pyInt? stored = some a → pyInt? cand = some b → a = b →
        verify_otp st now phone cand = some (true, rdel st (otpKey phone))
        ∧ verify_otp (rdel st (otpKey phone)) now phone cand
            = some (false, rdel st (otpKey phone)))
    ∧ (rget st now (otpKey phone) = some stored →
        pyInt? stored = some a → pyInt? cand = some b → a ≠ b →
        verify_otp st now phone cand = some (false, st)) := by
  refine ⟨fun h => ?_, fun h h1 h2 he => ⟨?_, ?_⟩, fun h h1 h2 hne => ?_⟩
  · unfold verify_otp verify_otp_parsed
    rw [h]
  · simp only [verify_otp, verify_otp_parsed, verify_otp_compare, h, h1, h2]
    rw [if_neg (not_not_intro he)]
  · unfold verify_otp verify_otp_parsed
    rw [rget_rdel_self]
  · simp only [verify_otp, verify_otp_parsed, verify_otp_compare, h, h1, h2]
    rw [if_pos hne]

/-- Closed instance of `C3_verify_otp_single_use`: the numeric
comparison accepts stored "007" against candidate "7", deletes the
record, and the immediate second attempt fails. -/
theorem C3_witness :
    verify_otp [(otpKey "p", "007", 300)] 0 "p" "7" = some (true, [])
    ∧ verify_otp [] 0 "p" "7" = some (false, []) := by
  have h := (C3_verify_otp_single_use
    [(otpKey "p", "007", 300)] 0 "p" "7" "007" 7 7).2.1
    (by decide) (by decide) (by decide) rfl
  have h0 := (C3_verify_otp_single_use [] 0 "p" "7" "007" 7 7).1 (by decide)
  exact ⟨by rw [h.1]; decide, h0⟩

/-- `get_current_user` answers 401 whenever `jwt.decode` fails. -/
theorem gcu_of_decode_none {us : List User} {secret : String} {now : Nat}
    {t : Token} (h : jwt_decode t secret now = none) :
    get_current_user us secret now t = .error 401 := by
  unfold get_current_user
  rw [h]

/-- C5: `get_current_user` fails with 401 on every decode failure
(wrong signing secret, expiry in the past, malformed token, subject
missing or non-numeric) and when the referenced user does not exist;
otherwise it returns the user row.  The `if`-and-only-`if` shape of the
final two conjuncts shows these are the *only* checks performed: the
service consults no blacklist (none exists — logout never writes one),
so the claim's blacklist condition is vacuously covered. -/
theorem C5_get_current_user_cases
    (us : List User) (secret : String) (now : Nat) (t : Token)
    (p : Payload) (sec s : String) (n : Int) (u : User) :
    (jwt_decode t secret now = none →
      get_current_user us secret now t = .error 401)
    ∧ get_current_user us secret now .malformed = .error 401
    ∧ (t = .signed p sec → sec ≠ secret →
        get_current_user us secret now t = .error 401)
    ∧ (t = .signed p sec → p.exp < now →
        get_current_user us secret now t = .error 401)
    ∧ (jwt_decode t secret now = some p → p.sub = none →
        get_current_user us secret now t = .error 401)
    ∧ (jwt_decode t secret now = some p → p.sub = some s →
        pyInt? s = none → get_current_user us secret now t = .error 401)
    ∧ (jwt_decode t secret now = some p → p.sub = some s →
        pyInt? s = some n → get_user_by_int_id us n = none →
        get_current_user us secret now t = .error 401)
    ∧ (jwt_decode t secret now = some p → p.sub = some s →
        pyInt? s = some n → get_user_by_int_id us n = some u →
        get_current_user us secret now t = .ok u) := by
  refine ⟨fun h => gcu_of_decode_none h,
    gcu_of_decode_none rfl,
    fun ht hsec => ?_, fun ht hexp => ?_,
    fun h h1 => ?_, fun h h1 h2 => ?_, fun h h1 h2 h3 => ?_,
    fun h h1 h2 h3 => ?_⟩
  · subst ht
    exact gcu_of_decode_none (by
      unfold jwt_decode
      exact if_neg (fun hh => hsec hh.1))
  · subst ht
    exact gcu_of_decode_none (by
      unfold jwt_decode
      exact if_neg (fun hh => by omega))
  · simp only [get_current_user, h, h1]
  · simp only [get_current_user, h, h1, h2]
  · simp only [get_current_user, h, h1, h2, h3]
  · simp only [get_current_user, h, h1, h2, h3]

def c5_user : User :=
  { id := "7", first_name := "Ann", last_name := "Lee",
    phone_number := "+998900000007",
    hashed_password := pwd_hash "pw7",
    role := .ORDINARY, is_active := true }

/-- Closed instance of `C5_get_current_user_cases`: a valid token whose
numeric subject names an existing user resolves to that user. -/
theorem C5_witness :
    get_current_user [c5_user] "secret" 0 (.signed ⟨some "7", 100⟩ "secret")
      = .ok c5_user :=
  (C5_get_current_user_cases [c5_user] "secret" 0
    (.signed ⟨some "7", 100⟩ "secret") ⟨some "7", 100⟩ "secret" "7" 7
    c5_user).2.2.2.2.2.2.2 (by decide) rfl (by decide) (by decide)

/-- C4 counterexample: the claim says every code from "000000" to
"999999" is possible.  `_generate_otp` is `str(randint(100000,
999999))`, so no generated code has a leading zero; in particular
"000000" is never returned, for any random draw. -/
theorem C4_counterexample : ¬ ∃ r : Nat, _generate_otp r = "000000" := by
  rintro ⟨r, hr⟩
  unfold _generate_otp at hr
  obtain ⟨d, tl, heq, hd1, hd2⟩ :=
    @pyStr_head (100000 + r % 900000) (by omega)
  rw [hr] at heq
  rw [show ("000000" : String).data = '0' :: "00000".data from rfl] at heq
  injection heq with h1 h2
  exact digitChar_ne_zero_char hd1 hd2 h1.symm

/-- C4 (amended): `create_otp` fails with 429 while a (truthy) cooldown
marker exists; otherwise it writes the OTP record with TTL 300 and the
cooldown marker with TTL 60 and returns the code; the code is the
decimal representation of a draw from `[100000, 999999]` — always six
characters and *never* starting with '0' (leading zeros are
impossible); a second call strictly within 60 seconds of a successful
one fails with 429, and any call from 60 seconds on succeeds again. -/
theorem C4_create_otp_amended
    (st : Store) (now : Nat) (phone : String) (r : Nat) (v : String) :
    (rget st now (cooldownKey phone) = some v → v ≠ "" →
      create_otp st now phone r = .error 429)
    ∧ (rget st now (cooldownKey phone) = none →
        create_otp st now phone r
          = .ok (_generate_otp r,
              rsetex (rsetex st now (otpKey phone) 300 (_generate_otp r))
                now (cooldownKey phone) 60 "1"))
    ∧ (_generate_otp r = pyStr (100000 + r % 900000)
        ∧ (_generate_otp r).length = 6
        ∧ ∃ d tl, (_generate_otp r).data = digitChar d :: tl
            ∧ 1 ≤ d ∧ d ≤ 9)
    ∧ (∀ st2 code, create_otp st now phone r = .ok (code, st2) →
        (∀ t r2, t < now + 60 → create_otp st2 t phone r2 = .error 429)
        ∧ (∀ t r2, now + 60 ≤ t →
            ∃ code2 st3, create_otp st2 t phone r2 = .ok (code2, st3))) := by
  have hlen : (_generate_otp r).length = 6 := by
    unfold _generate_otp
    exact pyStr_length (by omega) (by omega)
  have hgen : ∀ hnone : rget st now (cooldownKey phone) = none,
      create_otp st now phone r
        = .ok (_generate_otp r,
            rsetex (rsetex st now (otpKey phone) 300 (_generate_otp r))
              now (cooldownKey phone) 60 "1") := by
    intro hnone
    simp only [create_otp, hnone]
  refine ⟨fun h hv => ?_, hgen, ⟨rfl, hlen, ?_⟩, fun st2 code hok => ?_⟩
  · simp only [create_otp, h]
    rw [if_pos hv]
  · obtain ⟨d, tl, heq, hd1, hd2⟩ :=
      @pyStr_head (100000 + r % 900000) (by omega)
    exact ⟨d, tl, heq, hd1, hd2⟩
  · have hmain : (Except.ok (_generate_otp r,
          rsetex (rsetex st now (otpKey phone) 300 (_generate_otp r))
            now (cooldownKey phone) 60 "1") :
          Except Nat (String × Store)) = .ok (code, st2) := by
      rcases hcd : rget st now (cooldownKey phone) with _ | v'
      · simp only [create_otp, hcd] at hok
        exact hok
      · simp only [create_otp, hcd] at hok
        by_cases hv : v' ≠ ""
        · rw [if_pos hv] at hok; cases hok
        · rw [if_neg hv] at hok; exact hok
    injection hmain with hpair
    injection hpair with hcode hst2
    subst hst2
    constructor
    · intro t r2 ht
      have hc : rget (rsetex (rsetex st now (otpKey phone) 300
            (_generate_otp r)) now (cooldownKey phone) 60 "1") t
            (cooldownKey phone) = some "1" := by
        rw [rget_rsetex_self]
        exact if_pos ht
      simp only [create_otp, hc]
      rw [if_pos (by decide : ("1" : String) ≠ "")]
    · intro t r2 ht
      have hc : rget (rsetex (rsetex st now (otpKey phone) 300
            (_generate_otp r)) now (cooldownKey phone) 60 "1") t
            (cooldownKey phone) = none := by
        rw [rget_rsetex_self]
        exact if_neg (by omega)
      simp only [create_otp, hc]
      exact ⟨_, _, rfl⟩

/-- Closed instance of `C4_create_otp_amended`: a first issuance from
an empty store succeeds, a retry at 30s is rate-limited, a retry at 60s
succeeds. -/
theorem C4_witness :
    _generate_otp 0 = "100000"
    ∧ create_otp [] 0 "p" 0
        = .ok (_generate_otp 0,
            rsetex (rsetex [] 0 (otpKey "p") 300 (_generate_otp 0)) 0
              (cooldownKey "p") 60 "1")
    ∧ create_otp (rsetex (rsetex [] 0 (otpKey "p") 300 (_generate_otp 0)) 0
          (cooldownKey "p") 60 "1") 30 "p" 1 = .error 429
    ∧ ∃ code2 st3,
        create_otp (rsetex (rsetex [] 0 (otpKey "p") 300 (_generate_otp 0)) 0
          (cooldownKey "p") 60 "1") 60 "p" 1 = .ok (code2, st3) := by
  have h := C4_create_otp_amended [] 0 "p" 0 ""
  have hok := h.2.1 (by decide)
  have hseq := h.2.2.2 _ _ hok
  exact ⟨by decide, hok, hseq.1 30 1 (by omega), hseq.2 60 1 (by omega)⟩

def c6_input : RegisterIn :=
  { first_name := "John", last_name := "Doe",
    phone_number := "+998501234567", password := "Password123",
    otp := 123456 }

def c6_store : Store := [(otpKey "+998501234567", "123456", 300)]

def c6_new_user : User :=
  { id := "uuid-1", first_name := "John", last_name := "Doe",
    phone_number := "+998501234567",
    hashed_password := pwd_hash "Password123",
    role := .ORDINARY, is_active := true }

/-- C6: on the failure paths `register_user` raises 400 with no user
created, and on success it creates the ORDINARY-role user and runs the
login flow — but the login response is discarded (`login_user` is
awaited without `return`), so `register_user` returns `None` and the
201 response carries no tokens, against the claim's "responds 201 with
the issued tokens". -/
theorem C6_register_discards_login_response :
    register_user [] c6_store "secret" 0 30 "uuid-1" c6_input
      = some (.ok
          { users := [c6_new_user], store := [],
            login_result := .ok
              { status_code := 200,
                access_token := _create_access_token "uuid-1" "secret" 0 30,
                token_type := "bearer",
                refresh_cookie := _create_refresh_token "uuid-1" "secret" 0 },
            returned := none })
    ∧ register_user [c6_new_user] c6_store "secret" 0 30 "uuid-2" c6_input
        = some (.error 400)
    ∧ register_user [] [] "secret" 0 30 "uuid-1" c6_input
        = some (.error 400) :=
  ⟨by decide, by decide, by decide⟩

/-- An ADMIN member forces a positive admin count. -/
theorem one_le_admin_count {us : List User} {u : User}
    (hu : u ∈ us) (hr : u.role = .ADMIN) : 1 ≤ get_admin_count us := by
  have hp : decide (u.role = UserRole.ADMIN) = true := by rw [hr]; rfl
  have hpos : 0 < us.countP (fun x => decide (x.role = UserRole.ADMIN)) :=
    List.countP_pos_iff.mpr ⟨u, hu, hp⟩
  unfold get_admin_count
  omega

/-- A member whose id differs from the target survives a role update
unchanged. -/
theorem mem_update_role {us : List User} {u : User} (hu : u ∈ us)
    (tid : String) (role : UserRole) (hne : u.id ≠ tid) :
    u ∈ update_user_role us tid role := by
  unfold update_user_role
  have h := List.mem_map_of_mem
    (fun x : User => if x.id = tid then { x with role := role } else x) hu
  simp only [if_neg hne] at h
  exact h

theorem mem_update_status {us : List User} {u : User} (hu : u ∈ us)
    (tid : String) (active : Bool) (hne : u.id ≠ tid) :
    u ∈ update_user_status us tid active := by
  unfold update_user_status
  have h := List.mem_map_of_mem
    (fun x : User => if x.id = tid then { x with is_active := active } else x)
    hu
  simp only [if_neg hne] at h
  exact h

theorem mem_delete_rest {us : List User} {u : User} (hu : u ∈ us)
    (tid : String) (hne : u.id ≠ tid) :
    u ∈ us.filter (fun x => x.id ≠ tid) := by
  exact List.mem_filter.mpr ⟨hu, by simp [hne]⟩

/-- C2: under an authenticated admin actor, every admin operation
leaves at least one ADMIN in the store; demoting or deleting the sole
remaining ADMIN fails with 400 and leaves the store unchanged; demoting
a target when ≥ 2 admins exist succeeds. -/
theorem C2_admin_count_invariant
    (us : List User) (actor : User) (tid : String) (role : UserRole)
    (active : Bool) (t : User)
    (hmem : actor ∈ us) (hadm : actor.role = .ADMIN) :
    (1 ≤ get_admin_count (update_user_role_route us actor tid role).users
      ∧ 1 ≤ get_admin_count (update_user_status_route us actor tid active).users
      ∧ 1 ≤ get_admin_count (delete_user_route us actor tid).users)
    ∧ (get_user_by_id us tid = some t → t.role = .ADMIN →
        get_admin_count us ≤ 1 →
        (update_user_role_route us actor tid .ORDINARY).status = 400
        ∧ (update_user_role_route us actor tid .ORDINARY).users = us
        ∧ (delete_user_route us actor tid).status = 400
        ∧ (delete_user_route us actor tid).users = us)
    ∧ (get_user_by_id us tid = some t → tid ≠ actor.id →
        2 ≤ get_admin_count us →
        (update_user_role_route us actor tid .ORDINARY).status = 200
        ∧ (update_user_role_route us actor tid .ORDINARY).users
            = update_user_role us tid .ORDINARY
        ∧ 1 ≤ get_admin_count (update_user_role us tid .ORDINARY)) := by
  have hbase := one_le_admin_count hmem hadm
  refine ⟨⟨?_, ?_, ?_⟩, fun hlk hrole hcnt => ?_, fun hlk hne hcnt => ?_⟩
  · by_cases h1 : tid = actor.id
    · simp only [update_user_role_route, if_pos h1]; exact hbase
    · cases hlk : get_user_by_id us tid with
      | none =>
        simp only [update_user_role_route, if_neg h1, hlk]; exact hbase
      | some w =>
        by_cases hg : role = UserRole.ORDINARY ∧ get_admin_count us ≤ 1
        · simp only [update_user_role_route, if_neg h1, hlk, if_pos hg]
          exact hbase
        · simp only [update_user_role_route, if_neg h1, hlk, if_neg hg]
          exact one_le_admin_count
            (mem_update_role hmem tid role (fun he => h1 he.symm)) hadm
  · by_cases h1 : tid = actor.id
    · simp only [update_user_status_route, if_pos h1]; exact hbase
    · cases hlk : get_user_by_id us tid with
      | none =>
        simp only [update_user_status_route, if_neg h1, hlk]; exact hbase
      | some w =>
        simp only [update_user_status_route, if_neg h1, hlk]
        exact one_le_admin_count
          (mem_update_status hmem tid active (fun he => h1 he.symm)) hadm
  · by_cases h1 : tid = actor.id
    · simp only [delete_user_route, if_pos h1]; exact hbase
    · cases hlk : get_user_by_id us tid with
      | none => simp only [delete_user_route, if_neg h1, hlk]; exact hbase
      | some w =>
        by_cases hg : w.role = UserRole.ADMIN ∧ get_admin_count us ≤ 1
        · simp only [delete_user_route, if_neg h1, hlk, if_pos hg]
          exact hbase
        · have hdel : delete_user us tid
              = (true, us.filter (fun x => x.id ≠ tid)) := by
            unfold delete_user
            rw [hlk]
          simp only [delete_user_route, if_neg h1, hlk, if_neg hg, hdel,
            if_pos]
          exact one_le_admin_count
            (mem_delete_rest hmem tid (fun he => h1 he.symm)) hadm
  · have h400role : update_user_role_route us actor tid .ORDINARY
        = ⟨400, us, none⟩ := by
      by_cases h1 : tid = actor.id
      · simp only [update_user_role_route, if_pos h1]
      · simp only [update_user_role_route, if_neg h1, hlk]
        rw [if_pos]
        exact ⟨by trivial, hcnt⟩
    have h400del : delete_user_route us actor tid = ⟨400, us, none⟩ := by
      by_cases h1 : tid = actor.id
      · simp only [delete_user_route, if_pos h1]
      · simp only [delete_user_route, if_neg h1, hlk]
        rw [if_pos]
        exact ⟨hrole, hcnt⟩
    rw [h400role, h400del]
    exact ⟨rfl, rfl, rfl, rfl⟩
  · have hsucc : update_user_role_route us actor tid .ORDINARY
        = ⟨200, update_user_role us tid .ORDINARY,
            get_user_by_id (update_user_role us tid .ORDINARY) tid⟩ := by
      simp only [update_user_role_route, if_neg hne, hlk]
      rw [if_neg]
      exact fun hg => by have := hg.2; omega
    rw [hsucc]
    exact ⟨rfl, rfl,
      one_le_admin_count
        (mem_update_role hmem tid .ORDINARY (fun he => hne he.symm)) hadm⟩

def c2_admin_a : User :=
  { id := "a", first_name := "A", last_name := "A",
    phone_number := "+998900000001", hashed_password := pwd_hash "pa",
    role := .ADMIN, is_active := true }

def c2_admin_b : User :=
  { id := "b", first_name := "B", last_name := "B",
    phone_number := "+998900000002", hashed_password := pwd_hash "pb",
    role := .ADMIN, is_active := true }

/-- Closed instance of `C2_admin_count_invariant`: with two admins,
demoting one succeeds and an admin remains; with a sole admin, demoting
and deleting it fail with 400 and the store is unchanged. -/
theorem C2_witness :
    ((update_user_role_route [c2_admin_a, c2_admin_b] c2_admin_a "b"
        .ORDINARY).status = 200
      ∧ 1 ≤ get_admin_count (update_user_role_route [c2_admin_a, c2_admin_b]
          c2_admin_a "b" .ORDINARY).users)
    ∧ ((update_user_role_route [c2_admin_a] c2_admin_a "a"
        .ORDINARY).status = 400
      ∧ (update_user_role_route [c2_admin_a] c2_admin_a "a"
          .ORDINARY).users = [c2_admin_a]
      ∧ (delete_user_route [c2_admin_a] c2_admin_a "a").status = 400
      ∧ (delete_user_route [c2_admin_a] c2_admin_a "a").users
          = [c2_admin_a]) := by
  have h2 := C2_admin_count_invariant [c2_admin_a, c2_admin_b] c2_admin_a "b"
    .ORDINARY true c2_admin_b (by decide) (by decide)
  have h2s := h2.2.2 (by decide) (by decide) (by decide)
  have h1 := C2_admin_count_invariant [c2_admin_a] c2_admin_a "a"
    .ORDINARY true c2_admin_a (by decide) (by decide)
  have h1s := h1.2.1 (by decide) (by decide) (by decide)
  exact ⟨⟨h2s.1, by rw [h2s.2.1]; exact h2s.2.2⟩,
    h1s.1, h1s.2.1, h1s.2.2.1, h1s.2.2.2⟩

/-- Two distinct members satisfying a predicate force a count of at
least two. -/
theorem two_le_countP {α : Type} (p : α → Bool) {l : List α} {a b : α}
    (ha : a ∈ l) (hb : b ∈ l) (hab : a ≠ b)
    (hpa : p a = true) (hpb : p b = true) : 2 ≤ l.countP p := by
  induction l with
  | nil => cases ha
  | cons x xs ih =>
    rw [List.countP_cons]
    rcases List.mem_cons.mp ha with rfl | ha'
    · rcases List.mem_cons.mp hb with rfl | hb'
      · exact absurd rfl hab
      · have hpos : 0 < xs.countP p := List.countP_pos_iff.mpr ⟨b, hb', hpb⟩
        rw [if_pos hpa]
        omega
    · rcases List.mem_cons.mp hb with rfl | hb'
      · have hpos : 0 < xs.countP p := List.countP_pos_iff.mpr ⟨a, ha', hpa⟩
        rw [if_pos hpb]
        omega
      · have h2 := ih ha' hb'
        by_cases hx : p x = true
        · rw [if_pos hx]; omega
        · rw [if_neg hx]; omega

def c8_admin : User :=
  { id := "a1", first_name := "Ad", last_name := "Min",
    phone_number := "+998911111111", hashed_password := pwd_hash "pwa",
    role := .ADMIN, is_active := true }

def c8_target : User :=
  { id := "b2", first_name := "Bob", last_name := "Low",
    phone_number := "+998922222222", hashed_password := pwd_hash "pwb",
    role := .ORDINARY, is_active := true }

/-- C8 counterexample: the claim says any admin-surface operation aimed
at a *different* existing user id succeeds.  With a sole admin actor, a
role change to ORDINARY of a different, existing, already-ORDINARY user
fails with 400: the last-admin guard fires regardless of the target's
current role. -/
theorem C8_counterexample :
    c8_target.id ≠ c8_admin.id
    ∧ get_user_by_id [c8_admin, c8_target] c8_target.id = some c8_target
    ∧ c8_admin.role = .ADMIN
    ∧ c8_admin.is_active = true
    ∧ (update_user_role_route [c8_admin, c8_target] c8_admin c8_target.id
        .ORDINARY).status = 400
    ∧ (update_user_role_route [c8_admin, c8_target] c8_admin c8_target.id
        .ORDINARY).users = [c8_admin, c8_target] := by
  refine ⟨by decide, by decide, rfl, rfl, by decide, by decide⟩

/-- C8 (amended): self-targeted role change, status change and delete
all fail with 400 and leave the store unchanged (in particular a
self-deactivation attempt leaves the actor's row as it was); the same
operation on a different existing user id succeeds for a status change
and a delete, and for a role change except when the request demotes to
ORDINARY while the admin count is ≤ 1, in which case the last-admin
guard rejects it with 400 regardless of the target's current role. -/
theorem C8_self_target_rejected_amended
    (us : List User) (actor : User) (tid : String) (role : UserRole)
    (active : Bool) (t : User) :
    ((update_user_role_route us actor actor.id role).status = 400
      ∧ (update_user_role_route us actor actor.id role).users = us
      ∧ (update_user_status_route us actor actor.id active).status = 400
      ∧ (update_user_status_route us actor actor.id active).users = us
      ∧ get_user_by_id
          (update_user_status_route us actor actor.id false).users actor.id
          = get_user_by_id us actor.id
      ∧ (delete_user_route us actor actor.id).status = 400
      ∧ (delete_user_route us actor actor.id).users = us)
    ∧ (tid ≠ actor.id → get_user_by_id us tid = some t →
        (update_user_status_route us actor tid active).status = 200
        ∧ (¬ (role = UserRole.ORDINARY ∧ get_admin_count us ≤ 1) →
            (update_user_role_route us actor tid role).status = 200)
        ∧ (actor ∈ us → actor.role = .ADMIN →
            (delete_user_route us actor tid).status = 200)) := by
  constructor
  · simp only [update_user_role_route, update_user_status_route,
      delete_user_route, if_pos rfl]
    exact ⟨rfl, rfl, rfl, rfl, rfl, rfl, rfl⟩
  · intro hne hlk
    refine ⟨?_, fun hguard => ?_, fun hmem hadm => ?_⟩
    · simp only [update_user_status_route, if_neg hne, hlk]
    · simp only [update_user_role_route, if_neg hne, hlk]
      rw [if_neg hguard]
    · have ht_mem : t ∈ us := List.mem_of_find?_eq_some hlk
      have htid : t.id = tid := by
        have hs := List.find?_some hlk
        exact of_decide_eq_true hs
      have hdel : delete_user us tid
          = (true, us.filter (fun x => x.id ≠ tid)) := by
        unfold delete_user
        rw [hlk]
      have hguard : ¬ (t.role = UserRole.ADMIN ∧ get_admin_count us ≤ 1) := by
        rintro ⟨htr, hle⟩
        have hta : t ≠ actor := fun he => hne (by rw [← htid, he])
        have h2 : 2 ≤ get_admin_count us := by
          unfold get_admin_count
          exact two_le_countP _ ht_mem hmem hta
            (by rw [htr]; rfl) (by rw [hadm]; rfl)
        omega
      simp only [delete_user_route, if_neg hne, hlk, hdel]
      rw [if_neg hguard, if_pos trivial]

/-- Closed instance of `C8_self_target_rejected_amended`. -/
theorem C8_witness :
    (update_user_status_route [c8_admin, c8_target] c8_admin c8_admin.id
        false).status = 400
    ∧ (update_user_status_route [c8_admin, c8_target] c8_admin c8_admin.id
        false).users = [c8_admin, c8_target]
    ∧ (update_user_status_route [c8_admin, c8_target] c8_admin c8_target.id
        false).status = 200
    ∧ (update_user_role_route [c8_admin, c8_target] c8_admin c8_target.id
        .ADMIN).status = 200
    ∧ (delete_user_route [c8_admin, c8_target] c8_admin
        c8_target.id).status = 200 := by
  have h := C8_self_target_rejected_amended [c8_admin, c8_target] c8_admin
    c8_target.id .ADMIN false c8_target
  have hb := h.2 (by decide) (by decide)
  exact ⟨h.1.2.2.1, h.1.2.2.2.1, hb.1, hb.2.1 (by decide),
    hb.2.2 (by decide) (by decide)⟩

/-! ### Helpers for the Telegram round-trip (C9) -/

theorem rget_nil (now : Nat) (k : String) : rget [] now k = none := rfl

theorem rttl_rset_ne (st : Store) (now : Nat) (k v : String) (expireAt : Nat)
    (k' : String) (h : k' ≠ k) :
    rttl (rset st k v expireAt) now k' = rttl st now k' := by
  unfold rttl rset
  rw [List.find?_cons_of_neg _ (by simp; exact fun hh => h hh.symm),
    find?_filter_ne st k k' h]

/-- Two appends with prefixes that differ at a common index are
distinct strings, whatever the suffixes. -/
theorem append_ne_of_nth (p1 p2 x y : String) (i : Nat) (c1 c2 : Char)
    (hl1 : i < p1.data.length) (hl2 : i < p2.data.length)
    (h1 : p1.data[i]? = some c1) (h2 : p2.data[i]? = some c2)
    (hne : c1 ≠ c2) : p1 ++ x ≠ p2 ++ y := by
  intro h
  have hd : p1.data ++ x.data = p2.data ++ y.data := by
    have h' := congrArg String.data h
    simpa using h'
  have e1 : (p1.data ++ x.data)[i]? = some c1 := by
    rw [List.getElem?_append_left hl1]; exact h1
  have e2 : (p2.data ++ y.data)[i]? = some c2 := by
    rw [List.getElem?_append_left hl2]; exact h2
  rw [hd, e2] at e1
  exact hne (Option.some.inj e1).symm

theorem cooldownKey_ne_otpKey (p q : String) : cooldownKey p ≠ otpKey q :=
  append_ne_of_nth _ _ _ _ 3 '_' ':' (by decide) (by decide)
    (by decide) (by decide) (by decide)

theorem dedupKey_ne_cooldownKey (c : Int) (p : String) :
    telDedupKey c ≠ cooldownKey p :=
  append_ne_of_nth _ _ _ _ 0 't' 'o' (by decide) (by decide)
    (by decide) (by decide) (by decide)

theorem dedupKey_ne_otpKey (c : Int) (p : String) :
    telDedupKey c ≠ otpKey p :=
  append_ne_of_nth _ _ _ _ 0 't' 'o' (by decide) (by decide)
    (by decide) (by decide) (by decide)

theorem dedupKey_ne_phoneKey (c d : Int) : telDedupKey c ≠ telPhoneKey d :=
  append_ne_of_nth _ _ _ _ 9 'l' 'p' (by decide) (by decide)
    (by decide) (by decide) (by decide)

theorem phoneKey_ne_cooldownKey (c : Int) (p : String) :
    telPhoneKey c ≠ cooldownKey p :=
  append_ne_of_nth _ _ _ _ 0 't' 'o' (by decide) (by decide)
    (by decide) (by decide) (by decide)

theorem phoneKey_ne_otpKey (c : Int) (p : String) :
    telPhoneKey c ≠ otpKey p :=
  append_ne_of_nth _ _ _ _ 0 't' 'o' (by decide) (by decide)
    (by decide) (by decide) (by decide)

theorem dropWhile_self {α : Type} (q : α → Bool) (l : List α) :
    (l.dropWhile q).dropWhile q = l.dropWhile q := by
  cases hl : l.dropWhile q with
  | nil => rfl
  | cons x xs =>
    have hx0 := List.head?_dropWhile_not q l
    rw [hl] at hx0
    have hx : q x = false := hx0
    rw [List.dropWhile_cons_of_neg (by simp [hx])]

theorem normalize_phone_idem (p : String) :
    normalize_phone (normalize_phone p) = normalize_phone p := by
  unfold normalize_phone
  congr 1
  show String.mk (List.dropWhile (fun c => c = '+')
      ('+' :: p.data.dropWhile (fun c => c = '+'))) = _
  rw [List.dropWhile_cons_of_pos (by decide), dropWhile_self]

theorem normalize_phone_ne_empty (p : String) : normalize_phone p ≠ "" := by
  unfold normalize_phone
  intro h
  have h' := congrArg String.data h
  simp at h'

/-- Store contents after a fresh contact-shared update `i` in chat `c`
at time `t0`: dedup marker, phone correlation (keyed by the chat id),
OTP record and cooldown marker. -/
def tgS1 (p : String) (c : Int) (i : Int) (t0 : Nat) (r0 : Nat) : Store :=
  rsetex (rsetex (rset (rset [] (telDedupKey c) (pyIntStr i) (t0 + 3600))
      (telPhoneKey c) (normalize_phone p) (t0 + 600)) t0
    (otpKey (normalize_phone p)) 300 (_generate_otp r0)) t0
    (cooldownKey (normalize_phone p)) 60 "1"

theorem rget_tgS1_dedup (p : String) (c i : Int) (t0 r0 t1 : Nat) :
    rget (tgS1 p c i t0 r0) t1 (telDedupKey c)
      = if t1 < t0 + 3600 then some (pyIntStr i) else none := by
  unfold tgS1
  rw [rget_rsetex_ne _ _ _ _ _ _ _ (dedupKey_ne_cooldownKey c _),
    rget_rsetex_ne _ _ _ _ _ _ _ (dedupKey_ne_otpKey c _),
    rget_rset_ne _ _ _ _ _ _ (dedupKey_ne_phoneKey c c),
    rget_rset_self]

theorem rget_tgS1_phone (p : String) (c i : Int) (t0 r0 t1 : Nat) :
    rget (tgS1 p c i t0 r0) t1 (telPhoneKey c)
      = if t1 < t0 + 600 then some (normalize_phone p) else none := by
  unfold tgS1
  rw [rget_rsetex_ne _ _ _ _ _ _ _ (phoneKey_ne_cooldownKey c _),
    rget_rsetex_ne _ _ _ _ _ _ _ (phoneKey_ne_otpKey c _),
    rget_rset_self]

theorem rget_tgS1_cooldown (p : String) (c i : Int) (t0 r0 t1 : Nat) :
    rget (tgS1 p c i t0 r0) t1 (cooldownKey (normalize_phone p))
      = if t1 < t0 + 60 then some "1" else none := by
  unfold tgS1
  rw [rget_rsetex_self]

theorem rttl_tgS1_cooldown (p : String) (c i : Int) (t0 r0 t1 : Nat) :
    rttl (tgS1 p c i t0 r0) t1 (cooldownKey (normalize_phone p))
      = if t1 < t0 + 60 then ((t0 + 60 - t1 : Nat) : Int) else -2 := by
  unfold tgS1
  rw [rttl_rsetex_self]

/-- Processing a fresh shared contact: dedup marker written, phone
correlation stored under the *chat* id, OTP created and sent. -/
theorem process_contact_fresh (p : String) (c i : Int) (t0 r0 : Nat) :
    process_update [] t0 (.contactShared i c c c p) r0
      = some (.otpSent (normalize_phone p) (_generate_otp r0),
          tgS1 p c i t0 r0) := by
  have hc : rget (rset (rset [] (telDedupKey c) (pyIntStr i) (t0 + 3600))
      (telPhoneKey c) (normalize_phone p) (t0 + 600)) t0
      (cooldownKey (normalize_phone p)) = none := by
    rw [rget_rset_ne _ _ _ _ _ _ (Ne.symm (phoneKey_ne_cooldownKey c _)),
      rget_rset_ne _ _ _ _ _ _ (Ne.symm (dedupKey_ne_cooldownKey c _))]
    rfl
  simp only [process_update, tgChat, tgUpdateId, rget_nil]
  rw [if_neg (show ¬ c ≠ c from fun hh => hh rfl)]
  simp only [send_otp_with_button, create_otp, hc]
  rfl

/-- The resend callback in the same conversation, *when the sender's
user id equals the chat id*: the correlation resolves to the stored
normalized phone; within the cooldown it is rejected with the remaining
wait, afterwards a fresh OTP is issued for that same phone. -/
theorem process_resend_cases (p : String) (c : Int) (t0 t1 r0 r1 : Nat)
    (h06 : t1 < t0 + 600) :
    (t1 < t0 + 60 →
      process_update (tgS1 p c 1 t0 r0) t1 (.callback 2 c c "request_otp") r1
        = some (.cooldownRejected (normalize_phone p)
              ((t0 + 60 - t1 : Nat) : Int),
            rset (tgS1 p c 1 t0 r0) (telDedupKey c) (pyIntStr 2)
              (t1 + 3600)))
    ∧ (t0 + 60 ≤ t1 →
        ∃ st', process_update (tgS1 p c 1 t0 r0) t1
            (.callback 2 c c "request_otp") r1
          = some (.otpSent (normalize_phone p) (_generate_otp r1), st')) := by
  have hded : rget (tgS1 p c 1 t0 r0) t1 (telDedupKey c) = some "1" := by
    rw [rget_tgS1_dedup, if_pos (by omega)]
    decide
  have hp1 : pyInt? "1" = some 1 := by decide
  have hph : rget (rset (tgS1 p c 1 t0 r0) (telDedupKey c) (pyIntStr 2)
      (t1 + 3600)) t1 (telPhoneKey c) = some (normalize_phone p) := by
    rw [rget_rset_ne _ _ _ _ _ _ (dedupKey_ne_phoneKey c c).symm,
      rget_tgS1_phone, if_pos h06]
  have hcdttl : rttl (rset (tgS1 p c 1 t0 r0) (telDedupKey c) (pyIntStr 2)
      (t1 + 3600)) t1 (cooldownKey (normalize_phone p))
      = if t1 < t0 + 60 then ((t0 + 60 - t1 : Nat) : Int) else -2 := by
    rw [rttl_rset_ne _ _ _ _ _ _ (dedupKey_ne_cooldownKey c _).symm,
      rttl_tgS1_cooldown]
  constructor
  · intro h60
    have hcd : get_cooldown (rset (tgS1 p c 1 t0 r0) (telDedupKey c)
        (pyIntStr 2) (t1 + 3600)) t1 (normalize_phone p)
        = ((t0 + 60 - t1 : Nat) : Int) := by
      unfold get_cooldown
      rw [hcdttl, if_pos h60]
      exact max_eq_left (Int.natCast_nonneg _)
    simp only [process_update, tgChat, tgUpdateId, hded]
    rw [if_pos (by decide : ("1" : String) ≠ "")]
    simp only [hp1]
    rw [if_neg (by decide : ¬ (2 : Int) ≤ 1)]
    rw [if_pos trivial]
    simp only [hph]
    rw [if_neg (normalize_phone_ne_empty p)]
    simp only [hcd]
    rw [if_pos (show (0 : Int) < ((t0 + 60 - t1 : Nat) : Int) from
      Int.natCast_pos.mpr (by omega))]
  · intro h60
    have hcd : get_cooldown (rset (tgS1 p c 1 t0 r0) (telDedupKey c)
        (pyIntStr 2) (t1 + 3600)) t1 (normalize_phone p) = 0 := by
      unfold get_cooldown
      rw [hcdttl, if_neg (by omega)]
      decide
    have hc2 : rget (rset (rset (tgS1 p c 1 t0 r0) (telDedupKey c)
        (pyIntStr 2) (t1 + 3600)) (telPhoneKey c) (normalize_phone p)
        (t1 + 600)) t1 (cooldownKey (normalize_phone p)) = none := by
      rw [rget_rset_ne _ _ _ _ _ _ (Ne.symm (phoneKey_ne_cooldownKey c _)),
        rget_rset_ne _ _ _ _ _ _ (Ne.symm (dedupKey_ne_cooldownKey c _)),
        rget_tgS1_cooldown, if_neg (by omega)]
    refine ⟨rsetex (rsetex (rset (rset (tgS1 p c 1 t0 r0) (telDedupKey c)
        (pyIntStr 2) (t1 + 3600)) (telPhoneKey c) (normalize_phone p)
        (t1 + 600)) t1 (otpKey (normalize_phone p)) 300 (_generate_otp r1))
        t1 (cooldownKey (normalize_phone p)) 60 "1", ?_⟩
    simp only [process_update, tgChat, tgUpdateId, hded]
    rw [if_pos (by decide : ("1" : String) ≠ "")]
    simp only [hp1]
    rw [if_neg (by decide : ¬ (2 : Int) ≤ 1)]
    rw [if_pos trivial]
    simp only [hph]
    rw [if_neg (normalize_phone_ne_empty p)]
    simp only [hcd]
    rw [if_neg (by decide : ¬ (0 : Int) < 0)]
    simp only [send_otp_with_button, normalize_phone_idem, create_otp, hc2]

/-- C9 counterexample: the Phone Correlation is written under the
*chat* id but the resend handler reads it under the *sender's user* id.
In a conversation whose chat id (1) differs from the sender's user id
(2), the contact flow stores the phone under `telegram_phone_1`, and
the resend trigger in that same conversation looks up
`telegram_phone_2`, finds nothing, and answers "phone not found"
instead of resolving the phone and re-issuing. -/
theorem C9_counterexample :
    process_update [] 0 (.contactShared 1 1 2 2 "998901234567") 0
      = some (.otpSent "+998901234567" "100000",
          tgS1 "998901234567" 1 1 0 0)
    ∧ process_update (tgS1 "998901234567" 1 1 0 0) 10
        (.callback 2 1 2 "request_otp") 0
      = some (.phoneNotFound,
          rset (tgS1 "998901234567" 1 1 0 0) (telDedupKey 1) "2" 3610) := by
  constructor <;> decide

/-- C9 (amended): the round-trip holds when the callback's sender id
equals the chat id (the private-chat case): after the contact flow
stores the normalized phone under the chat id with TTL 600, a resend
trigger within that TTL resolves the same phone; it is rejected with
the remaining wait while the 60s cooldown holds, and re-issues a fresh
OTP for exactly that phone afterwards. -/
theorem C9_phone_correlation_amended (p : String) (c : Int)
    (t0 t1 r0 r1 : Nat) (h06 : t1 < t0 + 600) :
    process_update [] t0 (.contactShared 1 c c c p) r0
      = some (.otpSent (normalize_phone p) (_generate_otp r0),
          tgS1 p c 1 t0 r0)
    ∧ (t1 < t0 + 60 →
        process_update (tgS1 p c 1 t0 r0) t1
            (.callback 2 c c "request_otp") r1
          = some (.cooldownRejected (normalize_phone p)
                ((t0 + 60 - t1 : Nat) : Int),
              rset (tgS1 p c 1 t0 r0) (telDedupKey c) (pyIntStr 2)
                (t1 + 3600)))
    ∧ (t0 + 60 ≤ t1 →
        ∃ st', process_update (tgS1 p c 1 t0 r0) t1
            (.callback 2 c c "request_otp") r1
          = some (.otpSent (normalize_phone p) (_generate_otp r1), st')) :=
  ⟨process_contact_fresh p c 1 t0 r0,
   (process_resend_cases p c t0 t1 r0 r1 h06).1,
   (process_resend_cases p c t0 t1 r0 r1 h06).2⟩

/-- Closed instance of `C9_phone_correlation_amended` (private chat:
sender id = chat id = 1). -/
theorem C9_witness :
    process_update [] 0 (.contactShared 1 1 1 1 "998901234567") 0
      = some (.otpSent "+998901234567" "100000",
          tgS1 "998901234567" 1 1 0 0)
    ∧ process_update (tgS1 "998901234567" 1 1 0 0) 10
        (.callback 2 1 1 "request_otp") 1
      = some (.cooldownRejected "+998901234567" 50,
          rset (tgS1 "998901234567" 1 1 0 0) (telDedupKey 1) (pyIntStr 2)
            3610) := by
  have h := C9_phone_correlation_amended "998901234567" 1 0 10 0 1 (by omega)
  constructor
  · rw [h.1]
    decide
  · rw [h.2.1 (by omega)]
    decide

end Turon
